import Mathlib

/-!
Verification of the living-twin-simulation core against its specification.

The Python source is shallowly embedded: dataclasses become structures,
enums become inductive types, floats become rationals, and the ambient
random draws (random.random, random.uniform, uuid4) become explicit
parameters.  Python dict objects keyed by strings become association
lists, with the same overwrite-on-insert semantics.

Note on naming: domain/models.py renamed the enum member DIRECT_ORDER to
ORDER ("order") and the integer field priority_level to a symbolic
priority; the simulation, behavior and escalation modules still use the
old names DIRECT_ORDER and priority_level throughout.  The embedding
follows the logic modules: the order kind is one constructor and a
communication carries an integer priority_level as those modules read
and write it.
-/

namespace LivingTwin

/-- domain/models.py CommunicationType.  DIRECT_ORDER was renamed to
ORDER; the logic modules' references to DIRECT_ORDER denote this
constructor. -/
inductive CommunicationType where
  | order
  | recommendation
  | nudge
  | catchball
  | wisdomRequest
deriving DecidableEq, Repr

/-- domain/models.py ResponseType. -/
inductive ResponseType where
  | ignore
  | takeAction
  | seekClarification
  | provideWisdom
  | escalate
  | delegate
deriving DecidableEq, Repr

/-- domain/models.py OrganizationalMemberState (alias AgentState). -/
inductive MemberState where
  | available
  | busy
  | overwhelmed
  | onLeave
  | inMeeting
deriving DecidableEq, Repr

/-- domain/models.py PersonalityTrait. -/
inductive PersonalityTrait where
  | riskTolerance
  | authorityResponse
  | communicationStyle
  | changeAdaptability
  | workloadSensitivity
  | collaborationPreference
deriving DecidableEq, Repr

/-- domain/models.py AgentResponse, restricted to the fields the
embedded functions read.  created_at and the completion-time fields are
omitted because no embedded function inspects them. -/
structure AgentResponse where
  agent_id : String
  communication_id : String
  response_type : ResponseType
  content : String
  sentiment : ℚ
  confidence : ℚ
  action_taken : Bool
deriving DecidableEq, Repr

/-- domain/models.py StrategicCommunication (alias
PriorityCommunication), with the integer priority_level field that the
simulation, behavior and escalation modules read and write.  deadline
(a datetime) is modelled as an abstract optional integer timestamp. -/
structure Communication where
  id : String
  type : CommunicationType
  sender_id : String
  recipient_ids : List String
  subject : String
  content : String
  priority_level : ℤ
  deadline : Option ℤ
  organization_id : String
  nudge_count : ℤ
  escalation_threshold : ℤ
  responses : List AgentResponse
deriving DecidableEq, Repr

/-- domain/models.py ProfessionalProfile, fields used by the embedded
functions. -/
structure ProfessionalProfile where
  department : String
  role : String
  seniority_level : ℤ
  expertise_areas : List String
  direct_reports : List String
  manager_id : Option String
  workload_capacity : ℚ
  current_workload : ℚ
deriving DecidableEq, Repr

/-- domain/models.py OrganizationalMemberMemory (alias AgentMemory).
relationship_scores is a string-keyed dict, embedded as an association
list with overwrite-on-insert; interaction_history entries are opaque
here (only their count matters to no embedded function). -/
structure AgentMemory where
  interaction_count : ℕ
  relationship_scores : List (String × ℚ)
  stress_level : ℚ
deriving DecidableEq, Repr

/-- domain/models.py PersonalityProfile: after post-init every trait is
present, so the map is total. -/
structure PersonalityProfile where
  riskTolerance : ℚ
  authorityResponse : ℚ
  communicationStyle : ℚ
  changeAdaptability : ℚ
  workloadSensitivity : ℚ
  collaborationPreference : ℚ
deriving DecidableEq, Repr

def PersonalityProfile.getTrait (p : PersonalityProfile) : PersonalityTrait → ℚ
  | .riskTolerance => p.riskTolerance
  | .authorityResponse => p.authorityResponse
  | .communicationStyle => p.communicationStyle
  | .changeAdaptability => p.changeAdaptability
  | .workloadSensitivity => p.workloadSensitivity
  | .collaborationPreference => p.collaborationPreference

/-- domain/models.py OrganizationalMember (alias SimulationAgent). -/
structure Agent where
  id : String
  email : String
  name : String
  personality : PersonalityProfile
  professional : ProfessionalProfile
  memory : AgentMemory
  current_state : MemberState
  organization_id : String
deriving DecidableEq, Repr

/-- Association-list lookup modelling Python dict.get(key) on a dict
built by insertions that overwrite (here: latest binding first). -/
def alookup {α : Type} (m : List (String × α)) (k : String) : Option α :=
  match m with
  | [] => none
  | (k', v) :: rest => if k' = k then some v else alookup rest k

/-- Association-list insert modelling Python dict assignment
d[k] = v (overwrite). -/
def ainsert {α : Type} (m : List (String × α)) (k : String) (v : α) :
    List (String × α) :=
  (k, v) :: (m.filter (fun p => !(p.1 = k)))

/-- Python min on two floats (kernel-evaluable form of min). -/
def pymin (a b : ℚ) : ℚ := if a ≤ b then a else b

/-- Python max on two floats (kernel-evaluable form of max). -/
def pymax (a b : ℚ) : ℚ := if a ≤ b then b else a

lemma pymin_eq (a b : ℚ) : pymin a b = min a b := by
  rw [pymin, min_def]

lemma pymax_eq (a b : ℚ) : pymax a b = max a b := by
  rw [pymax, max_def]

end LivingTwin

namespace LivingTwin

/-! ## Escalation manager (simulation/escalation_manager.py) -/

/-- escalation_manager.py line 77-79: responses_by_agent dict build
followed by lookup.  The dict is keyed by agent_id and later responses
overwrite earlier ones, so the lookup yields the last response of that
agent in list order. -/
def lastResponseFor (rs : List AgentResponse) (rid : String) :
    Option AgentResponse :=
  rs.foldl (fun acc r => if r.agent_id = rid then some r else acc) none

/-- escalation_manager.py _find_non_responsive_recipients lines 67-94:
for each recipient in order, keep it when no response is recorded, or
the (last) response is IGNORE or ESCALATE, or it is TAKE_ACTION with
action_taken false. -/
def findNonResponsiveRecipients (c : Communication) : List String :=
  c.recipient_ids.filter (fun rid =>
    match lastResponseFor c.responses rid with
    | none => true
    | some r =>
        if r.response_type = ResponseType.ignore ∨
           r.response_type = ResponseType.escalate then true
        else if r.response_type = ResponseType.takeAction ∧
                r.action_taken = false then true
        else false)

/-- escalation_manager.py _should_escalate lines 47-65. -/
def shouldEscalate (c : Communication) : Bool :=
  if ¬(c.type = CommunicationType.nudge ∨
       c.type = CommunicationType.recommendation) then false
  else if c.nudge_count < c.escalation_threshold then false
  else decide (findNonResponsiveRecipients c ≠ [])

/-- escalation_manager.py _generate_escalated_content lines 122-148.
The Python f-string is reproduced with explicit concatenation; the
sender name falls back to "Management" when the sender is unknown.
Note: in the source the known-agent branch of the name lookups in
_log_escalation would raise AttributeError (dataclass has no .get);
this content helper itself uses plain attribute access and is sound. -/
def generateEscalatedContent (agents : List (String × Agent))
    (c : Communication) : String :=
  let senderName :=
    match alookup agents c.sender_id with
    | some a => a.name
    | none => "Management"
  "This is a direct order following " ++ toString c.nudge_count ++
  " previous communications on this matter.\n\nORIGINAL REQUEST:\n" ++
  c.content ++
  "\n\nIMMEDIATE ACTION REQUIRED:\nThis directive requires immediate attention and compliance. Previous communications on this matter have not received adequate response.\n\nPlease confirm receipt and provide a detailed action plan within 2 hours.\n\nFailure to respond will result in further escalation to senior management.\n\n- "
  ++ senderName

/-- escalation_manager.py _create_escalated_communication lines 96-120.
uuid4 for the new id is injected as freshId; default_escalation_threshold
is the manager's (default 5). -/
def createEscalatedCommunication (defaultThreshold : ℤ) (freshId : String)
    (agents : List (String × Agent)) (c : Communication) : Communication :=
  { id := freshId
    type := CommunicationType.order
    sender_id := c.sender_id
    recipient_ids := findNonResponsiveRecipients c
    subject := "URGENT: " ++ c.subject
    content := generateEscalatedContent agents c
    priority_level := min 5 (c.priority_level + 1)
    deadline := c.deadline
    organization_id := c.organization_id
    nudge_count := 0
    escalation_threshold := defaultThreshold
    responses := [] }

/-- escalation_manager.py _log_escalation lines 158-162: the
recipient-name extraction agents.get(agent_id, \x7b\x7d).get(name,
agent_id) calls .get on the SimulationAgent dataclass whenever the
escalated recipient is a known member, raising AttributeError; only
when every escalated recipient is unknown does the empty-dict default
apply and the record get built and appended (modelled separately by
escalationRecord). -/
def logEscalationResult (agents : List (String × Agent))
    (esc : Communication) : Except String Unit :=
  if esc.recipient_ids.any (fun rid => (alookup agents rid).isSome) then
    Except.error "AttributeError: OrganizationalMember has no attribute get"
  else Except.ok ()

/-- Loop body of check_for_escalations: per eligible communication,
build the escalated version, append it, then log; an AttributeError
from _log_escalation propagates, discarding the local list.  The n-th
eligible communication receives the n-th injected fresh uuid. -/
def checkForEscalationsGo (defaultThreshold : ℤ) (freshIds : ℕ → String)
    (agents : List (String × Agent)) :
    List Communication → ℕ → List Communication →
      Except String (List Communication)
  | [], _, acc => Except.ok acc
  | c :: rest, n, acc =>
      if shouldEscalate c then
        let esc := createEscalatedCommunication defaultThreshold
          (freshIds n) agents c
        match logEscalationResult agents esc with
        | Except.ok _ =>
            checkForEscalationsGo defaultThreshold freshIds agents rest
              (n + 1) (acc ++ [esc])
        | Except.error e => Except.error e
      else checkForEscalationsGo defaultThreshold freshIds agents rest n acc

/-- escalation_manager.py check_for_escalations lines 28-45, including
the AttributeError path of _log_escalation: when any escalated
recipient is a known member (the engine always passes the full agent
map, whose keys cover the recipients), the call raises instead of
returning the escalated list. -/
def checkForEscalations (defaultThreshold : ℤ) (freshIds : ℕ → String)
    (agents : List (String × Agent)) (comms : List Communication) :
    Except String (List Communication) :=
  checkForEscalationsGo defaultThreshold freshIds agents comms 0 []

/-- escalation_manager.py update_nudge_count lines 186-203: increment
the counter by one for NUDGE communications and report whether the
threshold is reached; other kinds are untouched and report false. -/
def updateNudgeCount (c : Communication) : Communication × Bool :=
  if c.type = CommunicationType.nudge then
    let c' := { c with nudge_count := c.nudge_count + 1 }
    (c', decide (c'.escalation_threshold ≤ c'.nudge_count))
  else (c, false)

end LivingTwin

namespace LivingTwin

/-! ## Behavior engine (agents/behavior_engine.py) -/

/-- behavior_engine.py _should_respond lines 68-91.  The single
random.random() draw taken by whichever branch executes is the
injected r. -/
def shouldRespond (a : Agent) (c : Communication) (r : ℚ) : Bool :=
  if a.current_state = MemberState.onLeave then false
  else if a.current_state = MemberState.overwhelmed then
    decide (r < 3/10)
  else if a.current_state = MemberState.busy ∧ c.priority_level < 4 then
    decide (r < 6/10)
  else if c.type = CommunicationType.order then
    decide (r < 95/100)
  else
    let authorityResponse := a.personality.getTrait .authorityResponse
    decide (r < 1/2 + authorityResponse * (3/10))

/-- behavior_engine.py _generate_response line 159: whether the agent
commits to action for a given response type. -/
def actionTakenFor (rt : ResponseType) : Bool :=
  rt = ResponseType.takeAction ∨ rt = ResponseType.delegate

/-- behavior_engine.py _update_agent_after_response lines 352-406:
append the interaction, adjust stress and workload with their caps,
adjust the relationship with the sender, and recompute the member
state from the workload ratio. -/
def updateAgentAfterResponse (a : Agent) (senderId : String)
    (rt : ResponseType) : Agent :=
  let mem0 := { a.memory with interaction_count := a.memory.interaction_count + 1 }
  let stress1 :=
    if rt = ResponseType.ignore then mem0.stress_level + 5/100
    else if rt = ResponseType.takeAction then mem0.stress_level + 1/10
    else if rt = ResponseType.seekClarification then mem0.stress_level + 2/100
    else mem0.stress_level
  let workload1 :=
    if rt = ResponseType.takeAction then
      a.professional.current_workload + 1/10
    else a.professional.current_workload
  let stress2 := pymin 1 stress1
  let workload2 := pymin (a.professional.workload_capacity * (12/10)) workload1
  let currentRel :=
    match alookup mem0.relationship_scores senderId with
    | some v => v
    | none => 1/2
  let rel2 :=
    if rt = ResponseType.takeAction then
      ainsert mem0.relationship_scores senderId (pymin 1 (currentRel + 5/100))
    else if rt = ResponseType.ignore then
      ainsert mem0.relationship_scores senderId (pymax 0 (currentRel - 1/10))
    else mem0.relationship_scores
  let workloadFrac := workload2 / a.professional.workload_capacity
  let newState :=
    if workloadFrac > 11/10 then MemberState.overwhelmed
    else if workloadFrac > 8/10 then MemberState.busy
    else MemberState.available
  { a with
    memory := { mem0 with stress_level := stress2, relationship_scores := rel2 }
    professional := { a.professional with current_workload := workload2 }
    current_state := newState }

/-! ## Time engine and scheduler (simulation/time_engine.py) -/

/-- time_engine.py TimeEngine, with datetimes as abstract integer
timestamps (simulated and real time share the unit). -/
structure TimeEngine where
  acceleration_factor : ℤ
  real_start_time : ℤ
  simulation_start_time : ℤ
  is_running : Bool
deriving DecidableEq, Repr

/-- time_engine.py TimeEngine.start lines 30-39.  When the engine is
already running the source logs a warning and returns; otherwise it
marks the engine running and resets real_start_time to the current
wall clock.  The result is wrapped in Except to record that no
execution path raises. -/
def TimeEngine.start (e : TimeEngine) (now : ℤ) : Except String TimeEngine :=
  if e.is_running then
    Except.ok e
  else
    Except.ok { e with is_running := true, real_start_time := now }

/-- A scheduled event: target simulated time, an insertion sequence
number standing for the callback object, and whether the callback
raises when invoked (modelling an arbitrary exception). -/
structure SchedEvent where
  time : ℤ
  seq : ℕ
  raises : Bool
deriving DecidableEq, Repr

/-- One slot of the source's event list: (simulation_time, callback). -/
def SchedEvent.timeLe (a b : SchedEvent) : Prop := a.time ≤ b.time

/-- Insertion step of a stable sort by target time. -/
def insertByTime (e : SchedEvent) : List SchedEvent → List SchedEvent
  | [] => [e]
  | f :: rest =>
      if f.time ≤ e.time then f :: insertByTime e rest
      else e :: f :: rest

/-- Stable sort by target time (insertion sort, processing left to
right and inserting each element after equal keys already placed),
modelling Python list.sort(key=time) which is stable. -/
def sortByTime (l : List SchedEvent) : List SchedEvent :=
  l.foldl (fun acc e => insertByTime e acc) []

/-- time_engine.py SimulationScheduler.schedule_event lines 135-141:
append the new event and re-sort the list by time (stable). -/
def scheduleEvent (queue : List SchedEvent) (e : SchedEvent) :
    List SchedEvent :=
  sortByTime (queue ++ [e])

/-- Build a queue from scratch by successive schedule_event calls; the
n-th request receives insertion sequence number n. -/
def buildQueue (reqs : List (ℤ × Bool)) : List SchedEvent :=
  (reqs.enum.map (fun p => SchedEvent.mk p.2.1 p.1 p.2.2)).foldl
    scheduleEvent []

/-- time_engine.py _process_scheduled_events lines 166-179: split the
queue into the due events (time ≤ current) and the remaining ones,
preserving order.  Returns (events_to_trigger, remaining_events). -/
def splitDueEvents (queue : List SchedEvent) (current : ℤ) :
    List SchedEvent × List SchedEvent :=
  queue.foldl
    (fun acc e =>
      if e.time ≤ current then (acc.1 ++ [e], acc.2)
      else (acc.1, acc.2 ++ [e]))
    ([], [])

/-- The invocation of one callback: raises or returns. -/
def runCallback (e : SchedEvent) : Except String Unit :=
  if e.raises then Except.error "callback raised" else Except.ok ()

/-- time_engine.py _process_scheduled_events lines 182-186: invoke each
due callback inside try/except, so an exception is caught and the loop
continues with the next callback.  Returns the sequence numbers of the
callbacks that were invoked, in invocation order. -/
def fireEvents : List SchedEvent → List ℕ
  | [] => []
  | e :: rest =>
      match runCallback e with
      | Except.ok _ => e.seq :: fireEvents rest
      | Except.error _ => e.seq :: fireEvents rest

/-- Whole tick of the scheduler: partition, update the stored queue,
fire the due callbacks. -/
def processScheduledEvents (queue : List SchedEvent) (current : ℤ) :
    (List SchedEvent × List SchedEvent) × List ℕ :=
  let split := splitDueEvents queue current
  ((split.1, split.2), fireEvents split.1)

end LivingTwin

namespace LivingTwin

/-! ## Escalation audit log and metrics (simulation/escalation_manager.py) -/

/-- A value in an escalation history record (the records are plain
Python dicts mixing strings, ints and string lists). -/
inductive RVal where
  | str (s : String)
  | int (n : ℤ)
  | strList (l : List String)
deriving DecidableEq, Repr

/-- domain/models.py CommunicationType .value strings. -/
def CommunicationType.value : CommunicationType → String
  | .order => "order"
  | .recommendation => "recommendation"
  | .nudge => "nudge"
  | .catchball => "catchball"
  | .wisdomRequest => "wisdom_request"

/-- escalation_manager.py _log_escalation lines 150-178: the record
appended to escalation_history.  Exactly these eleven keys are
written; in particular no "organization_id" key.  The recipient-name
extraction `agents.get(agent_id, \x7b\x7d).get('name', agent_id)` is
modelled by its intended meaning (the member's name when known, the id
otherwise); on the known-member branch the source expression would in
fact raise AttributeError, which does not affect the key set. -/
def escalationRecord (timestamp : String) (agents : List (String × Agent))
    (orig esc : Communication) : List (String × RVal) :=
  let senderName :=
    match alookup agents orig.sender_id with
    | some a => a.name
    | none => "Unknown"
  let nonResponsiveNames := esc.recipient_ids.map (fun rid =>
    match alookup agents rid with
    | some a => a.name
    | none => rid)
  [("timestamp", RVal.str timestamp),
   ("original_communication_id", RVal.str orig.id),
   ("escalated_communication_id", RVal.str esc.id),
   ("sender_name", RVal.str senderName),
   ("sender_id", RVal.str orig.sender_id),
   ("non_responsive_recipients", RVal.strList nonResponsiveNames),
   ("nudge_count", RVal.int orig.nudge_count),
   ("escalation_threshold", RVal.int orig.escalation_threshold),
   ("original_type", RVal.str orig.type.value),
   ("escalated_type", RVal.str esc.type.value),
   ("priority_increase", RVal.int (esc.priority_level - orig.priority_level))]

/-- record.get("organization_id") == organization_id for a string
organization id: a missing key yields Python None, which compares
unequal to every string, and a non-string value also compares
unequal. -/
def recordMatchesOrg (rec : List (String × RVal)) (orgId : String) : Bool :=
  match alookup rec "organization_id" with
  | some (RVal.str s) => s = orgId
  | _ => false

/-- Result shape of escalation_manager.py get_escalation_metrics. -/
structure EscalationMetrics where
  total_escalations : ℕ
  average_nudges_before_escalation : ℚ
  most_escalated_senders : List (String × ℕ)
  most_non_responsive_recipients : List (String × ℕ)
  escalation_rate : ℚ
deriving DecidableEq, Repr

/-- record["nudge_count"] as an integer (all logged records carry the
key; a missing key would raise KeyError and is modelled as 0). -/
def recNudgeCount (rec : List (String × RVal)) : ℤ :=
  match alookup rec "nudge_count" with
  | some (RVal.int n) => n
  | _ => 0

def recSenderName (rec : List (String × RVal)) : String :=
  match alookup rec "sender_name" with
  | some (RVal.str s) => s
  | _ => ""

def recNonResponsive (rec : List (String × RVal)) : List String :=
  match alookup rec "non_responsive_recipients" with
  | some (RVal.strList l) => l
  | _ => []

/-- Count occurrences into a dict, modelling
counts[k] = counts.get(k, 0) + 1 over a key sequence (insertion order
of first occurrence preserved, as in a Python dict). -/
def countOccurrences (ks : List String) : List (String × ℕ) :=
  ks.foldl
    (fun m k =>
      match alookup m k with
      | some n => m.map (fun p => if p.1 = k then (p.1, n + 1) else p)
      | none => m ++ [(k, 1)])
    []

/-- Stable descending sort by count, modelling
sorted(counts.items(), key=count, reverse=True). -/
def insertByCountDesc (e : String × ℕ) :
    List (String × ℕ) → List (String × ℕ)
  | [] => [e]
  | f :: rest =>
      if e.2 ≤ f.2 then f :: insertByCountDesc e rest
      else e :: f :: rest

def sortByCountDesc (l : List (String × ℕ)) : List (String × ℕ) :=
  l.foldl (fun acc e => insertByCountDesc e acc) []

/-- Python round(x, 2) modelled with Mathlib round (the difference on
exact ties to banker's rounding is irrelevant to the claims). -/
def round2 (q : ℚ) : ℚ := (round (q * 100) : ℤ) / 100

/-- escalation_manager.py get_escalation_metrics lines 205-257. -/
def getEscalationMetrics (orgId : String)
    (history : List (List (String × RVal))) : EscalationMetrics :=
  let orgEscalations := history.filter (fun rec => recordMatchesOrg rec orgId)
  if orgEscalations.isEmpty then
    { total_escalations := 0
      average_nudges_before_escalation := 0
      most_escalated_senders := []
      most_non_responsive_recipients := []
      escalation_rate := 0 }
  else
    let totalEscalations := orgEscalations.length
    let totalNudges := (orgEscalations.map recNudgeCount).sum
    let averageNudges :=
      if 0 < totalEscalations then
        (totalNudges : ℚ) / (totalEscalations : ℚ)
      else 0
    let senderCounts := countOccurrences (orgEscalations.map recSenderName)
    let recipientCounts :=
      countOccurrences (orgEscalations.flatMap recNonResponsive)
    { total_escalations := totalEscalations
      average_nudges_before_escalation := round2 averageNudges
      most_escalated_senders := (sortByCountDesc senderCounts).take 5
      most_non_responsive_recipients :=
        (sortByCountDesc recipientCounts).take 5
      escalation_rate :=
        round2 ((totalEscalations : ℚ) / (max 1 totalNudges : ℤ) * 100) }

/-! ## Wisdom engine (simulation/wisdom_engine.py) -/

/-- domain/models.py CatchballFeedback, fields read by the consensus
computation. -/
structure CatchballFeedback where
  agent_id : String
  department : String
  feedback_content : String
  response_type : ResponseType
  sentiment : ℚ
  confidence_level : ℚ
deriving DecidableEq, Repr

/-- wisdom_engine.py _calculate_consensus_level lines 260-270: zero on
an empty round, otherwise (count of sentiment > 0.3 plus count of
TAKE_ACTION responses) over twice the feedback count, clamped at 1. -/
def calculateConsensusLevel (feedback : List CatchballFeedback) : ℚ :=
  if feedback.isEmpty then 0
  else
    let positiveResponses :=
      feedback.countP (fun f => decide (f.sentiment > 3/10))
    let actionResponses :=
      feedback.countP (fun f => f.response_type = ResponseType.takeAction)
    let consensusScore :=
      ((positiveResponses : ℚ) + (actionResponses : ℚ)) /
        ((feedback.length : ℚ) * 2)
    pymin 1 consensusScore

end LivingTwin

namespace LivingTwin

/-! ## Agent factory (agents/agent_factory.py) -/

/-- Occurrence of a character sequence inside another (Python
`sub in s` on the underlying character lists). -/
def hasSubstr (sub : List Char) : List Char → Bool
  | [] => sub.isEmpty
  | h :: t => sub.isPrefixOf (h :: t) || hasSubstr sub t

/-- Python substring test `sub in s`. -/
def strContains (s sub : String) : Bool := hasSubstr sub.data s.data

def containsAny (s : String) (subs : List String) : Bool :=
  subs.any (fun sub => strContains s sub)

/-- Python str.lower, character-wise. -/
def pyLower (s : String) : String := ⟨s.data.map Char.toLower⟩

/-- Python str.capitalize: first character upper-cased, the rest
lower-cased. -/
def pyCapitalize (s : String) : String :=
  match s.data with
  | [] => ⟨[]⟩
  | c :: rest => ⟨Char.toUpper c :: rest.map Char.toLower⟩

/-- Split a character list into maximal space-free words, modelling
Python str.split() on an input whose only whitespace is the space
character. -/
def splitIntoWords (cs : List Char) : List (List Char) :=
  (cs.splitOn ' ').filter (fun w => !w.isEmpty)

/-- agent_factory.py _extract_name_from_email lines 202-211: the part
of the email before "@", with "." and "_" turned into spaces, split
into words, each capitalized and joined with single spaces. -/
def extractNameFromEmail (email : String) : String :=
  if email = "" then "Unknown"
  else
    let localPart := email.data.takeWhile (fun c => c ≠ '@')
    let spaced := localPart.map
      (fun c => if c = '.' ∨ c = '_' then ' ' else c)
    let nameParts := (splitIntoWords spaced).map (fun w => (⟨w⟩ : String))
    " ".intercalate (nameParts.map pyCapitalize)

/-- agent_factory.py _determine_seniority_level lines 213-227. -/
def determineSeniorityLevel (role : String) : ℤ :=
  let roleLower := pyLower role
  if containsAny roleLower ["ceo", "chief", "president"] then 5
  else if containsAny roleLower ["vp", "vice president"] then 4
  else if containsAny roleLower ["director", "head of"] then 3
  else if containsAny roleLower ["manager", "lead", "senior manager"] then 2
  else 1

/-- agent_factory.py _calculate_workload_capacity lines 275-280. -/
def calculateWorkloadCapacity (seniorityLevel : ℤ) : ℚ :=
  pymin (3/2) (8/10 + (seniorityLevel : ℚ) * (1/10))

def mkProfile (f : PersonalityTrait → ℚ) : PersonalityProfile :=
  { riskTolerance := f .riskTolerance
    authorityResponse := f .authorityResponse
    communicationStyle := f .communicationStyle
    changeAdaptability := f .changeAdaptability
    workloadSensitivity := f .workloadSensitivity
    collaborationPreference := f .collaborationPreference }

/-- agent_factory.py PERSONALITY_ARCHETYPES lines 23-96, in source
dict insertion order. -/
def personalityArchetypes : List (String × PersonalityProfile) :=
  [("CEO", ⟨8/10, 3/10, 9/10, 9/10, 2/10, 7/10⟩),
   ("VP", ⟨7/10, 6/10, 8/10, 8/10, 3/10, 8/10⟩),
   ("Director", ⟨6/10, 7/10, 7/10, 7/10, 4/10, 8/10⟩),
   ("Manager", ⟨5/10, 8/10, 6/10, 6/10, 5/10, 7/10⟩),
   ("Engineer", ⟨4/10, 6/10, 4/10, 7/10, 6/10, 6/10⟩),
   ("Sales", ⟨7/10, 7/10, 8/10, 8/10, 4/10, 9/10⟩),
   ("HR", ⟨3/10, 8/10, 3/10, 6/10, 5/10, 9/10⟩),
   ("Operations", ⟨2/10, 9/10, 5/10, 4/10, 6/10, 6/10⟩),
   ("Marketing", ⟨6/10, 7/10, 7/10, 8/10, 5/10, 8/10⟩)]

/-- agent_factory.py DEPARTMENT_EXPERTISE lines 99-107. -/
def departmentExpertise : List (String × List String) :=
  [("Engineering",
    ["software_development", "system_architecture", "technical_design",
     "code_review"]),
   ("Sales",
    ["customer_relations", "negotiation", "market_analysis",
     "revenue_optimization"]),
   ("Marketing",
    ["brand_management", "content_creation", "market_research",
     "campaign_management"]),
   ("HR",
    ["talent_acquisition", "employee_relations", "policy_development",
     "performance_management"]),
   ("Operations",
    ["process_optimization", "resource_management", "quality_assurance",
     "logistics"]),
   ("IT", ["infrastructure", "security", "data_management",
     "technical_support"]),
   ("Finance", ["financial_analysis", "budgeting", "risk_assessment",
     "compliance"])]

/-- First archetype whose (lower-cased) name occurs in the given
lower-cased string, mirroring the for/break loops of
_create_personality_profile. -/
def firstMatchingArchetype (s : String) :
    Option PersonalityProfile :=
  (personalityArchetypes.find? (fun p => strContains s (pyLower p.1))).map
    (fun p => p.2)

/-- agent_factory.py _create_personality_profile lines 229-257.  The
per-trait random.uniform(-0.2, 0.2) draws are the injected variation
function; PersonalityProfile post-init re-clamps, which is idempotent
here. -/
def createPersonalityProfile (role department : String)
    (variation : PersonalityTrait → ℚ) : PersonalityProfile :=
  let base :=
    match firstMatchingArchetype (pyLower role) with
    | some b => b
    | none =>
        match firstMatchingArchetype (pyLower department) with
        | some b => b
        | none => mkProfile (fun _ => 1/2)
  mkProfile (fun t => pymax 0 (pymin 1 (base.getTrait t + variation t)))

/-- agent_factory.py _get_expertise_areas lines 259-273. -/
def getExpertiseAreas (department role : String) : List String :=
  let baseExpertise :=
    match alookup departmentExpertise department with
    | some l => l
    | none => ["general_business"]
  let roleLower := pyLower role
  let e1 := baseExpertise ++
    (if strContains roleLower "senior" ∨ strContains roleLower "lead"
     then ["mentoring"] else [])
  let e2 := e1 ++
    (if strContains roleLower "manager" ∨ strContains roleLower "director"
     then ["team_management", "strategic_planning"] else [])
  e2 ++
    (if containsAny roleLower ["vp", "chief", "ceo"]
     then ["executive_leadership", "organizational_strategy"] else [])

/-- agent_factory.py _determine_initial_state lines 282-299, with the
random.random() draw injected. -/
def determineInitialState (r : ℚ) : MemberState :=
  if r ≤ 6/10 then MemberState.available
  else if r ≤ 9/10 then MemberState.busy
  else if r ≤ 98/100 then MemberState.inMeeting
  else if r ≤ 1 then MemberState.overwhelmed
  else MemberState.available

/-- A population-ingestion record: a Python dict in which any of the
expected fields may be absent (dict.get returns None). -/
structure EmployeeRecord where
  email : Option String
  department : Option String
  role : Option String
deriving DecidableEq, Repr

/-- The random draws consumed while constructing one agent, plus the
uuid4 identity. -/
structure FactoryDraws where
  freshId : String
  traitVariation : PersonalityTrait → ℚ
  initialWorkload : ℚ
  initialStress : ℚ
  stateDraw : ℚ

/-- agent_factory.py create_agent_from_employee lines 109-160.  Every
missing or malformed-as-missing field is replaced by a default
(email "", department "General", role "Employee"); no validation is
performed and no error can be produced. -/
def createAgentFromEmployee (rec : EmployeeRecord) (orgId : String)
    (managerId : Option String) (directReports : List String)
    (draws : FactoryDraws) : Agent :=
  let email := rec.email.getD ""
  let name := extractNameFromEmail email
  let department := rec.department.getD "General"
  let role := rec.role.getD "Employee"
  let seniority := determineSeniorityLevel role
  let personality := createPersonalityProfile role department
      draws.traitVariation
  let professional : ProfessionalProfile :=
    { department := department
      role := role
      seniority_level := seniority
      expertise_areas := getExpertiseAreas department role
      direct_reports := directReports
      manager_id := managerId
      workload_capacity := calculateWorkloadCapacity seniority
      current_workload := draws.initialWorkload }
  let memory : AgentMemory :=
    { interaction_count := 0
      relationship_scores := []
      stress_level := draws.initialStress }
  { id := draws.freshId
    email := email
    name := name
    personality := personality
    professional := professional
    memory := memory
    current_state := determineInitialState draws.stateDraw
    organization_id := orgId }

/-- agent_factory.py _find_manager_email lines 301-322: the first other
employee of the same department whose role contains a manager-like
title. -/
def findManagerEmail (employeeEmail : String)
    (employeeData : List (String × EmployeeRecord)) : Option String :=
  let info :=
    match alookup employeeData employeeEmail with
    | some i => i
    | none => ⟨none, none, none⟩
  let department := info.department.getD ""
  ((employeeData.find? (fun p =>
      p.1 ≠ employeeEmail ∧
      (p.2.department.getD "") = department ∧
      containsAny (pyLower (p.2.role.getD ""))
        ["manager", "director", "vp", "head"])).map (fun p => p.1))

/-- agent_factory.py _find_direct_reports lines 324-348. -/
def findDirectReports (managerEmail : String)
    (employeeData : List (String × EmployeeRecord)) : List String :=
  let info :=
    match alookup employeeData managerEmail with
    | some i => i
    | none => ⟨none, none, none⟩
  let managerDept := info.department.getD ""
  let managerRole := pyLower (info.role.getD "")
  if !containsAny managerRole ["manager", "director", "vp", "ceo", "head"]
  then []
  else
    (employeeData.filter (fun p =>
      p.1 ≠ managerEmail ∧
      (p.2.department.getD "") = managerDept ∧
      !containsAny (pyLower (p.2.role.getD ""))
        ["manager", "director", "vp", "ceo"])).map (fun p => p.1)

/-- agent_factory.py _initialize_relationship_scores lines 350-379,
with the per-pair random.uniform(-0.2, 0.2) injected. -/
def initializeRelationshipScores (a : Agent)
    (allAgents : List (String × Agent))
    (relVariation : String → String → ℚ) : Agent :=
  let scores := allAgents.foldl
    (fun m p =>
      if p.1 = a.id then m
      else
        let other := p.2
        let base0 : ℚ := 1/2
        let base1 :=
          if other.professional.department = a.professional.department
          then base0 + 2/10 else base0
        let base2 :=
          if a.professional.manager_id = some p.1 then base1 + 3/10
          else if p.1 ∈ a.professional.direct_reports then base1 + 2/10
          else base1
        let base3 :=
          if |a.professional.seniority_level -
              other.professional.seniority_level| ≤ 1
          then base2 + 1/10 else base2
        let finalScore := pymax 0 (pymin 1 (base3 + relVariation a.id p.1))
        ainsert m p.1 finalScore)
    a.memory.relationship_scores
  { a with memory := { a.memory with relationship_scores := scores } }

/-- agent_factory.py create_agents_from_organization lines 162-200:
first pass creates one agent per record unconditionally; the second
pass fills manager/direct-report references and relationship scores.
No record is ever rejected.  Draws are injected per input position. -/
def createAgentsFromOrganization
    (employeeData : List (String × EmployeeRecord)) (orgId : String)
    (draws : ℕ → FactoryDraws)
    (relVariation : String → String → ℚ) : List (String × Agent) :=
  let firstPass := employeeData.enum.map (fun p =>
    let a := createAgentFromEmployee
      { p.2.2 with email := some p.2.1 } orgId none [] (draws p.1)
    (a.id, a))
  let emailToAgentId := firstPass.map (fun p => (p.2.email, p.2.id))
  firstPass.map (fun p =>
    let a := p.2
    let managerId :=
      match findManagerEmail a.email employeeData with
      | some me => alookup emailToAgentId me
      | none => none
    let reports := (findDirectReports a.email employeeData).filterMap
      (fun e => alookup emailToAgentId e)
    let a' := { a with professional :=
      { a.professional with
        manager_id := (match managerId with
          | some m => some m
          | none => a.professional.manager_id)
        direct_reports := reports } }
    (p.1, initializeRelationshipScores a' firstPass relVariation))

end LivingTwin

namespace LivingTwin

/-! ## Simulation orchestrator (simulation/simulation_engine.py) -/

/-- simulation_engine.py _update_agent_states lines 324-341, body for
one agent: decay stress toward 0, decay workload toward a floor of
0.1, recompute the member state from the workload ratio. -/
def decayAgentState (a : Agent) : Agent :=
  let stress' := pymax 0 (a.memory.stress_level - 1/100)
  let workload' := pymax (1/10) (a.professional.current_workload - 5/100)
  let workloadFrac := workload' / a.professional.workload_capacity
  let newState :=
    if workloadFrac > 11/10 then MemberState.overwhelmed
    else if workloadFrac > 8/10 then MemberState.busy
    else MemberState.available
  { a with
    memory := { a.memory with stress_level := stress' }
    professional := { a.professional with current_workload := workload' }
    current_state := newState }

/-- The engine state fields involved in the embedded operations
(domain/models.py SimulationState). -/
structure SimState where
  agents : List (String × Agent)
  active_communications : List Communication
  total_communications_sent : ℕ
  total_responses_received : ℕ
  escalations_triggered : ℕ
deriving DecidableEq, Repr

/-- simulation_engine.py _calculate_friction_score lines 343-367. -/
def calculateFrictionScore (s : SimState) : ℚ :=
  if s.agents.isEmpty then 0
  else
    let totalStress := (s.agents.map (fun p => p.2.memory.stress_level)).sum
    let avgStress := totalStress / (s.agents.length : ℚ)
    let escalationRate :=
      (s.escalations_triggered : ℚ) /
        (max 1 s.total_communications_sent : ℕ)
    let responseRate :=
      (s.total_responses_received : ℚ) /
        (max 1 s.total_communications_sent : ℕ)
    let nonResponseRate := 1 - responseRate
    pymin 1 (avgStress * (4/10) + escalationRate * (4/10) +
      nonResponseRate * (2/10))

/-- simulation_engine.py send_communication lines 103-146 (state
mutation part): construct the communication with the dataclass
defaults nudge_count 0 and escalation_threshold 5, append it to the
active list and count it. -/
def sendCommunication (s : SimState) (freshId senderId : String)
    (recipients : List String) (ctype : CommunicationType)
    (subject content : String) (priorityLevel : ℤ) (deadline : Option ℤ)
    (orgId : String) : SimState × Communication :=
  let c : Communication :=
    { id := freshId
      type := ctype
      sender_id := senderId
      recipient_ids := recipients
      subject := subject
      content := content
      priority_level := priorityLevel
      deadline := deadline
      organization_id := orgId
      nudge_count := 0
      escalation_threshold := 5
      responses := [] }
  ({ s with
      active_communications := s.active_communications ++ [c]
      total_communications_sent := s.total_communications_sent + 1 }, c)

/-- The outcome of the behavior engine for one recipient in one round:
none when the gate declines, otherwise the sampled response type with
the generated content, sentiment and confidence.  All the engine's
random draws for that recipient are absorbed here. -/
structure ResponseDraw where
  response_type : ResponseType
  content : String
  sentiment : ℚ
  confidence : ℚ
deriving DecidableEq, Repr

/-- Replace the value stored under a key (in-place mutation of a dict
entry). -/
def aupdate {α : Type} (m : List (String × α)) (k : String) (v : α) :
    List (String × α) :=
  m.map (fun p => if p.1 = k then (p.1, v) else p)

/-- simulation_engine.py _process_communication_responses lines
188-238: for each recipient in order, skip unknown ids, otherwise let
the behavior engine produce an optional response (injected as
decisions); append produced responses to the communication and count
them; afterwards, for NUDGE/RECOMMENDATION communications run the
escalation check and append any escalated communication, counting it.
When the escalation check raises (the AttributeError of
_log_escalation), the exception propagates out of the processing
coroutine: the response mutations already performed stand and no
escalated communication is recorded or counted.  Returns the new
state together with the updated communication. -/
def processCommunicationResponses (s : SimState) (c : Communication)
    (decisions : String → Option ResponseDraw) (freshIds : ℕ → String) :
    SimState × Communication :=
  let step := c.recipient_ids.foldl
    (fun (acc : List (String × Agent) × List AgentResponse) rid =>
      match alookup acc.1 rid with
      | none => acc
      | some a =>
          match decisions rid with
          | none => acc
          | some d =>
              let resp : AgentResponse :=
                { agent_id := a.id
                  communication_id := c.id
                  response_type := d.response_type
                  content := d.content
                  sentiment := d.sentiment
                  confidence := d.confidence
                  action_taken := actionTakenFor d.response_type }
              let a' := updateAgentAfterResponse a c.sender_id
                  d.response_type
              (aupdate acc.1 rid a', acc.2 ++ [resp]))
    (s.agents, [])
  let agents' := step.1
  let newResponses := step.2
  let c' := { c with responses := c.responses ++ newResponses }
  let s1 : SimState :=
    { s with
      agents := agents'
      total_responses_received :=
        s.total_responses_received + newResponses.length
      active_communications :=
        s.active_communications.map (fun x => if x.id = c.id then c' else x) }
  if c.type = CommunicationType.nudge ∨
     c.type = CommunicationType.recommendation then
    match checkForEscalations 5 freshIds agents' [c'] with
    | Except.ok escalated =>
        ({ s1 with
            active_communications := s1.active_communications ++ escalated
            escalations_triggered :=
              s1.escalations_triggered + escalated.length },
          c')
    | Except.error _ => (s1, c')
  else (s1, c')

/-- simulation_engine.py _update_agent_states lines 324-341: the
periodic maintenance decays every agent. -/
def updateAgentStates (s : SimState) : SimState :=
  { s with agents := s.agents.map (fun p => (p.1, decayAgentState p.2)) }

/-- simulation_engine.py start_simulation lines 60-85: the initial
engine state after population build. -/
def initialState (employeeData : List (String × EmployeeRecord))
    (orgId : String) (draws : ℕ → FactoryDraws)
    (relVariation : String → String → ℚ) : SimState :=
  { agents := createAgentsFromOrganization employeeData orgId draws
      relVariation
    active_communications := []
    total_communications_sent := 0
    total_responses_received := 0
    escalations_triggered := 0 }

/-- The ranges of the random draws consumed by the agent factory:
stress from uniform(0.1, 0.4), workload from uniform(0.3, 0.8), trait
variation from uniform(-0.2, 0.2), state draw from random.random(). -/
def DrawsInRange (d : FactoryDraws) : Prop :=
  (∀ t, -1/5 ≤ d.traitVariation t ∧ d.traitVariation t ≤ 1/5) ∧
  3/10 ≤ d.initialWorkload ∧ d.initialWorkload ≤ 4/5 ∧
  1/10 ≤ d.initialStress ∧ d.initialStress ≤ 2/5 ∧
  0 ≤ d.stateDraw ∧ d.stateDraw ≤ 1

/-- Realizability of a round of behavior-engine outcomes: an agent on
leave never responds (behavior_engine.py line 72), the sampled type is
one of the three kinds carried by the base distribution of
calculate_response_probability (models.py lines 138-149), and
sentiment/confidence lie in the ranges of the matching generator
(behavior_engine.py lines 177-248). -/
def DecisionsOk (agents : List (String × Agent))
    (decisions : String → Option ResponseDraw) : Prop :=
  ∀ rid d, decisions rid = some d →
    (∃ a, alookup agents rid = some a ∧
      a.current_state ≠ MemberState.onLeave) ∧
    ((d.response_type = ResponseType.takeAction ∧
        3/10 ≤ d.sentiment ∧ d.sentiment ≤ 8/10 ∧
        6/10 ≤ d.confidence ∧ d.confidence ≤ 9/10) ∨
     (d.response_type = ResponseType.seekClarification ∧
        1/10 ≤ d.sentiment ∧ d.sentiment ≤ 1/2 ∧
        2/5 ≤ d.confidence ∧ d.confidence ≤ 7/10) ∨
     (d.response_type = ResponseType.ignore ∧
        d.sentiment = 0 ∧ d.confidence = 3/10))

/-- Engine states reachable through the embedded operation surface:
population build, send_communication, a response-processing round on
an active communication with realizable behavior outcomes, and the
periodic agent-state decay. -/
inductive Reach : SimState → Prop where
  | init (employeeData : List (String × EmployeeRecord)) (orgId : String)
      (draws : ℕ → FactoryDraws) (relVariation : String → String → ℚ)
      (hdraws : ∀ n, DrawsInRange (draws n))
      (hrel : ∀ i j, -1/5 ≤ relVariation i j ∧ relVariation i j ≤ 1/5) :
      Reach (initialState employeeData orgId draws relVariation)
  | send (s : SimState) (freshId senderId : String)
      (recipients : List String) (ctype : CommunicationType)
      (subject content : String) (priorityLevel : ℤ)
      (deadline : Option ℤ) (orgId : String) :
      Reach s →
      Reach (sendCommunication s freshId senderId recipients ctype
        subject content priorityLevel deadline orgId).1
  | process (s : SimState) (c : Communication)
      (decisions : String → Option ResponseDraw) (freshIds : ℕ → String) :
      Reach s → c ∈ s.active_communications →
      DecisionsOk s.agents decisions →
      Reach (processCommunicationResponses s c decisions freshIds).1
  | decay (s : SimState) : Reach s → Reach (updateAgentStates s)

end LivingTwin

namespace LivingTwin

/-! ## Sample concrete objects used by witnesses and counterexamples -/

/-- A stopped time engine. -/
def stoppedEngine : TimeEngine := ⟨144, 0, 0, false⟩

/-- A running time engine. -/
def runningEngine : TimeEngine := ⟨144, 0, 0, true⟩

/-- A feedback entry with positive sentiment and a take-action
response. -/
def fbPositiveAction : CatchballFeedback :=
  ⟨"a1", "Engineering", "on it", ResponseType.takeAction, 1/2, 7/10⟩

/-- A feedback entry with negative sentiment and an ignore response. -/
def fbNegativeIgnore : CatchballFeedback :=
  ⟨"a2", "Sales", "no", ResponseType.ignore, -1/2, 3/10⟩

end LivingTwin

namespace LivingTwin

/-! ## C7: double start of the time engine -/

/-- C7 counterexample: calling start() on an already-running engine
returns normally with the engine unchanged (the source only logs a
warning); no AlreadyRunningError is raised, contradicting the claim
that a double start fails with an explicit exception. -/
theorem timeEngine_double_start_counterexample :
    runningEngine.is_running = true ∧
    TimeEngine.start runningEngine 5 = Except.ok runningEngine := by
  constructor
  · rfl
  · rfl

/-- C7 amended: start() on a running engine is a warning-logging no-op
that returns normally with the engine unchanged, and start() on a
stopped engine returns normally, marks it running and resets the real
start time; no execution path raises. -/
theorem timeEngine_start_spec (e : TimeEngine) (now : ℤ) :
    (e.is_running = true → TimeEngine.start e now = Except.ok e) ∧
    (e.is_running = false →
      TimeEngine.start e now =
        Except.ok { e with is_running := true, real_start_time := now }) := by
  constructor
  · intro h
    simp [TimeEngine.start, h]
  · intro h
    simp [TimeEngine.start, h]

/-- Witness for C7's amended theorem at concrete engines. -/
theorem timeEngine_start_spec_witness :
    TimeEngine.start stoppedEngine 7 = Except.ok ⟨144, 7, 0, true⟩ ∧
    TimeEngine.start runningEngine 7 = Except.ok runningEngine :=
  ⟨(timeEngine_start_spec stoppedEngine 7).2 rfl,
   (timeEngine_start_spec runningEngine 7).1 rfl⟩

/-! ## C6: wisdom consensus score -/

/-- C6: the consensus score is 0 on an empty feedback set, otherwise
equals (fraction with sentiment above 0.3 plus fraction with
take-action response) / 2; it always lies in [0,1]; a nonempty
all-positive all-take-action set yields exactly 1 and an all-negative
all-ignore set yields exactly 0. -/
theorem consensus_level_spec (fb : List CatchballFeedback) :
    (0 ≤ calculateConsensusLevel fb ∧ calculateConsensusLevel fb ≤ 1) ∧
    (fb = [] → calculateConsensusLevel fb = 0) ∧
    (fb ≠ [] →
      calculateConsensusLevel fb =
        ((fb.countP (fun f => decide (f.sentiment > 3/10)) : ℚ) /
            (fb.length : ℚ) +
         (fb.countP (fun f =>
            decide (f.response_type = ResponseType.takeAction)) : ℚ) /
            (fb.length : ℚ)) / 2) ∧
    (fb ≠ [] →
      (∀ f ∈ fb, f.sentiment > 3/10 ∧
        f.response_type = ResponseType.takeAction) →
      calculateConsensusLevel fb = 1) ∧
    ((∀ f ∈ fb, f.sentiment < 0 ∧ f.response_type = ResponseType.ignore) →
      calculateConsensusLevel fb = 0) := by
  have hposle : ∀ l : List CatchballFeedback,
      (l.countP (fun f => decide (f.sentiment > 3/10))) ≤ l.length :=
    fun l => List.countP_le_length _
  have hactle : ∀ l : List CatchballFeedback,
      (l.countP (fun f =>
        decide (f.response_type = ResponseType.takeAction))) ≤ l.length :=
    fun l => List.countP_le_length _
  rcases eq_or_ne fb [] with hfb | hfb
  · subst hfb
    refine ⟨⟨le_refl 0, by norm_num [calculateConsensusLevel]⟩,
      fun _ => rfl, ?_, ?_, ?_⟩
    · intro h; exact absurd rfl h
    · intro h; exact absurd rfl h
    · intro _; rfl
  · have hlen : 0 < fb.length := List.length_pos.mpr hfb
    have hlenQ : (0 : ℚ) < (fb.length : ℚ) := by exact_mod_cast hlen
    have hne : ¬fb.isEmpty := by
      simp [List.isEmpty_iff, hfb]
    set p := fb.countP (fun f => decide (f.sentiment > 3/10)) with hp
    set a := fb.countP
      (fun f => decide (f.response_type = ResponseType.takeAction)) with ha
    have hscore : calculateConsensusLevel fb =
        min 1 (((p : ℚ) + (a : ℚ)) / ((fb.length : ℚ) * 2)) := by
      rw [show calculateConsensusLevel fb =
          pymin 1 (((p : ℚ) + (a : ℚ)) / ((fb.length : ℚ) * 2)) by
        simp [calculateConsensusLevel, hne, hp, ha], pymin_eq]
    have hfrac_le : ((p : ℚ) + (a : ℚ)) / ((fb.length : ℚ) * 2) ≤ 1 := by
      rw [div_le_one (by positivity)]
      have h1 : (p : ℚ) ≤ (fb.length : ℚ) := by exact_mod_cast hposle fb
      have h2 : (a : ℚ) ≤ (fb.length : ℚ) := by exact_mod_cast hactle fb
      linarith
    have hfrac_nonneg : 0 ≤ ((p : ℚ) + (a : ℚ)) / ((fb.length : ℚ) * 2) := by
      positivity
    have hmin : calculateConsensusLevel fb =
        ((p : ℚ) + (a : ℚ)) / ((fb.length : ℚ) * 2) := by
      rw [hscore, min_eq_right hfrac_le]
    refine ⟨⟨?_, ?_⟩, ?_, ?_, ?_, ?_⟩
    · rw [hmin]; exact hfrac_nonneg
    · rw [hscore]; exact min_le_left _ _
    · intro h; exact absurd h hfb
    · intro _
      rw [hmin]
      field_simp
      try ring
    · intro _ hall
      have hpfull : p = fb.length := by
        rw [hp]
        apply List.countP_eq_length.mpr
        intro f hf
        simpa using (hall f hf).1
      have hafull : a = fb.length := by
        rw [ha]
        apply List.countP_eq_length.mpr
        intro f hf
        simpa using (hall f hf).2
      rw [hmin, hpfull, hafull]
      field_simp
      try ring
    · intro hall
      have hpzero : p = 0 := by
        rw [hp]
        apply List.countP_eq_zero.mpr
        intro f hf
        have := (hall f hf).1
        simp only [decide_eq_true_eq]
        intro hgt
        linarith
      have hazero : a = 0 := by
        rw [ha]
        apply List.countP_eq_zero.mpr
        intro f hf
        have := (hall f hf).2
        simp [this]
      rw [hmin, hpzero, hazero]
      norm_num

/-- Witness for C6: the endpoint cases evaluated at concrete feedback
sets. -/
theorem consensus_level_spec_witness :
    calculateConsensusLevel [fbPositiveAction] = 1 ∧
    calculateConsensusLevel [fbNegativeIgnore] = 0 ∧
    calculateConsensusLevel ([] : List CatchballFeedback) = 0 :=
  ⟨(consensus_level_spec [fbPositiveAction]).2.2.2.1 (by simp)
      (by intro f hf; simp at hf; subst hf;
          exact ⟨by norm_num [fbPositiveAction], rfl⟩),
   (consensus_level_spec [fbNegativeIgnore]).2.2.2.2
      (by intro f hf; simp at hf; subst hf;
          exact ⟨by norm_num [fbNegativeIgnore], rfl⟩),
   (consensus_level_spec []).2.1 rfl⟩

end LivingTwin

namespace LivingTwin

/-! ## C4: response gate for ORDER communications -/

/-- A communication of ORDER kind with default priority 3. -/
def orderComm : Communication :=
  ⟨"c1", CommunicationType.order, "boss", ["a1"], "subj", "body", 3,
    none, "org", 0, 5, []⟩

/-- A baseline professional profile used by sample agents. -/
def sampleProfessional : ProfessionalProfile :=
  ⟨"Engineering", "Engineer", 1, [], [], none, 1, 1/2⟩

/-- A sample agent in the given state. -/
def agentInState (st : MemberState) : Agent :=
  ⟨"a1", "a@x.com", "A", mkProfile (fun _ => 1/2), sampleProfessional,
    ⟨0, [], 0⟩, st, "org"⟩

/-- C4 counterexample: an overwhelmed agent receiving an ORDER with the
draw r = 1/2 does not respond (the overwhelmed branch fires at
probability 0.3 before the ORDER branch is reached), although the
claim predicts a response whenever r < 0.95 for any state other than
on-leave. -/
theorem order_gate_counterexample :
    (agentInState MemberState.overwhelmed).current_state ≠
      MemberState.onLeave ∧
    orderComm.type = CommunicationType.order ∧
    ((1 : ℚ)/2 < 95/100) ∧
    shouldRespond (agentInState MemberState.overwhelmed) orderComm (1/2)
      = false := by
  refine ⟨by decide, rfl, by norm_num, ?_⟩
  norm_num [shouldRespond, agentInState]

/-- C4 amended: for an ORDER communication the gate answers iff
r < 0.95 only for agents that are available, in a meeting, or busy
with priority at least 4; overwhelmed agents answer iff r < 0.3, busy
agents with priority below 4 answer iff r < 0.6, and on-leave agents
never answer. -/
theorem order_gate_spec (a : Agent) (c : Communication) (r : ℚ)
    (hc : c.type = CommunicationType.order) :
    ((a.current_state = MemberState.available ∨
      a.current_state = MemberState.inMeeting) →
        shouldRespond a c r = decide (r < 95/100)) ∧
    (a.current_state = MemberState.busy → 4 ≤ c.priority_level →
        shouldRespond a c r = decide (r < 95/100)) ∧
    (a.current_state = MemberState.busy → c.priority_level < 4 →
        shouldRespond a c r = decide (r < 6/10)) ∧
    (a.current_state = MemberState.overwhelmed →
        shouldRespond a c r = decide (r < 3/10)) ∧
    (a.current_state = MemberState.onLeave →
        shouldRespond a c r = false) := by
  refine ⟨?_, ?_, ?_, ?_, ?_⟩
  · rintro (h | h) <;> simp [shouldRespond, h, hc]
  · intro h hp
    have : ¬(c.priority_level < 4) := by omega
    simp [shouldRespond, h, hc, this]
  · intro h hp
    simp [shouldRespond, h, hc, hp]
  · intro h
    simp [shouldRespond, h]
  · intro h
    simp [shouldRespond, h]

/-- Witness for C4's amended theorem: the four reachable gate outcomes
at concrete draws. -/
theorem order_gate_spec_witness :
    shouldRespond (agentInState MemberState.available) orderComm (9/10)
      = true ∧
    shouldRespond (agentInState MemberState.overwhelmed) orderComm (2/10)
      = true ∧
    shouldRespond (agentInState MemberState.busy) orderComm (1/2)
      = true ∧
    shouldRespond (agentInState MemberState.onLeave) orderComm (0)
      = false := by
  refine ⟨?_, ?_, ?_, ?_⟩
  · rw [(order_gate_spec (agentInState MemberState.available) orderComm
      (9/10) rfl).1 (Or.inl rfl)]
    norm_num
  · rw [(order_gate_spec (agentInState MemberState.overwhelmed) orderComm
      (2/10) rfl).2.2.2.1 rfl]
    norm_num
  · rw [(order_gate_spec (agentInState MemberState.busy) orderComm
      (1/2) rfl).2.2.1 rfl (by norm_num [orderComm])]
    norm_num
  · exact (order_gate_spec (agentInState MemberState.onLeave) orderComm
      0 rfl).2.2.2.2 rfl

/-! ## C8: population ingestion never rejects a record -/

/-- The fully-missing (malformed) employee record. -/
def emptyRecord : EmployeeRecord := ⟨none, none, none⟩

/-- Fixed draws for the factory. -/
def factoryDrawsA : FactoryDraws := ⟨"id1", fun _ => 0, 1/2, 1/5, 0⟩

/-- C8 counterexample: a record with every required field missing is
not rejected; it yields a constructed persona with silently substituted
defaults (department "General", role "Employee", seniority 1, name
"Unknown"), contradicting the claim that malformed records fail with a
named-field validation error. -/
theorem population_validation_counterexample :
    (createAgentFromEmployee emptyRecord "org" none [] factoryDrawsA).professional.department = "General" ∧
    (createAgentFromEmployee emptyRecord "org" none [] factoryDrawsA).professional.role = "Employee" ∧
    (createAgentFromEmployee emptyRecord "org" none [] factoryDrawsA).professional.seniority_level = 1 ∧
    (createAgentFromEmployee emptyRecord "org" none [] factoryDrawsA).name = "Unknown" := by
  refine ⟨rfl, rfl, by decide, rfl⟩

/-- C8 amended: population build performs no validation at all: every
batch yields exactly one constructed persona per record (none is
rejected, well-formed or not), and a missing email, department or role
is silently replaced by the defaults "", "General", "Employee". -/
theorem population_ingestion_spec
    (employeeData : List (String × EmployeeRecord)) (orgId : String)
    (draws : ℕ → FactoryDraws) (relVariation : String → String → ℚ)
    (rec : EmployeeRecord) (oid : String) (mid : Option String)
    (reps : List String) (dr : FactoryDraws) :
    (createAgentsFromOrganization employeeData orgId draws
      relVariation).length = employeeData.length ∧
    (createAgentFromEmployee rec oid mid reps dr).professional.department
      = rec.department.getD "General" ∧
    (createAgentFromEmployee rec oid mid reps dr).professional.role
      = rec.role.getD "Employee" ∧
    (createAgentFromEmployee rec oid mid reps dr).email
      = rec.email.getD "" := by
  refine ⟨?_, rfl, rfl, rfl⟩
  simp [createAgentsFromOrganization]

end LivingTwin

namespace LivingTwin

/-! ## C3: stress and workload bounds -/

/-- One per-agent mutation of the run: a response-processing update
(behavior_engine.py _update_agent_after_response) or one periodic
state-decay update (simulation_engine.py _update_agent_states). -/
inductive AgentStep where
  | respond (senderId : String) (rt : ResponseType)
  | decay
deriving DecidableEq, Repr

def applyAgentStep (a : Agent) : AgentStep → Agent
  | AgentStep.respond sid rt => updateAgentAfterResponse a sid rt
  | AgentStep.decay => decayAgentState a

def applyAgentSteps (a : Agent) (steps : List AgentStep) : Agent :=
  steps.foldl applyAgentStep a

lemma applyAgentSteps_cons (a : Agent) (s : AgentStep)
    (rest : List AgentStep) :
    applyAgentSteps a (s :: rest) = applyAgentSteps (applyAgentStep a s) rest :=
  rfl

/-- The bounds asserted by the claim. -/
def AgentBoundsOk (a : Agent) : Prop :=
  0 ≤ a.memory.stress_level ∧ a.memory.stress_level ≤ 1 ∧
  0 ≤ a.professional.current_workload ∧
  a.professional.current_workload ≤
    a.professional.workload_capacity * (12/10)

/-- The clamp shapes produced by _update_agent_after_response. -/
lemma clampedBounds (cap X W : ℚ) (hcap : 0 ≤ cap) (hX : 0 ≤ X)
    (hW : 0 ≤ W) :
    0 ≤ pymin 1 X ∧ pymin 1 X ≤ 1 ∧
    0 ≤ pymin (cap * (12/10)) W ∧
    pymin (cap * (12/10)) W ≤ cap * (12/10) := by
  simp only [pymin_eq]
  exact ⟨le_min (by norm_num) hX, min_le_left _ _,
    le_min (mul_nonneg hcap (by norm_num)) hW, min_le_left _ _⟩

lemma updateAgentAfterResponse_bounds (a : Agent) (sid : String)
    (rt : ResponseType)
    (hcap : 0 ≤ a.professional.workload_capacity)
    (h : AgentBoundsOk a) :
    AgentBoundsOk (updateAgentAfterResponse a sid rt) ∧
    (updateAgentAfterResponse a sid rt).professional.workload_capacity =
      a.professional.workload_capacity := by
  obtain ⟨hs0, hs1, hw0, hw1⟩ := h
  cases rt with
  | ignore =>
      exact ⟨clampedBounds a.professional.workload_capacity
        (a.memory.stress_level + 5/100) a.professional.current_workload
        hcap (by linarith) hw0, rfl⟩
  | takeAction =>
      exact ⟨clampedBounds a.professional.workload_capacity
        (a.memory.stress_level + 1/10)
        (a.professional.current_workload + 1/10)
        hcap (by linarith) (by linarith), rfl⟩
  | seekClarification =>
      exact ⟨clampedBounds a.professional.workload_capacity
        (a.memory.stress_level + 2/100) a.professional.current_workload
        hcap (by linarith) hw0, rfl⟩
  | provideWisdom =>
      exact ⟨clampedBounds a.professional.workload_capacity
        a.memory.stress_level a.professional.current_workload
        hcap hs0 hw0, rfl⟩
  | escalate =>
      exact ⟨clampedBounds a.professional.workload_capacity
        a.memory.stress_level a.professional.current_workload
        hcap hs0 hw0, rfl⟩
  | delegate =>
      exact ⟨clampedBounds a.professional.workload_capacity
        a.memory.stress_level a.professional.current_workload
        hcap hs0 hw0, rfl⟩

lemma decayAgentState_bounds (a : Agent)
    (hcap : 1/12 ≤ a.professional.workload_capacity)
    (h : AgentBoundsOk a) :
    AgentBoundsOk (decayAgentState a) ∧
    (decayAgentState a).professional.workload_capacity =
      a.professional.workload_capacity := by
  obtain ⟨hs0, hs1, hw0, hw1⟩ := h
  have hfloor : (1 : ℚ)/10 ≤ a.professional.workload_capacity * (12/10) := by
    nlinarith
  refine ⟨⟨?_, ?_, ?_, ?_⟩, rfl⟩
  · show (0 : ℚ) ≤ pymax 0 (a.memory.stress_level - 1/100)
    rw [pymax_eq]
    exact le_max_left 0 _
  · show pymax 0 (a.memory.stress_level - 1/100) ≤ 1
    rw [pymax_eq]
    exact max_le (by norm_num) (by linarith)
  · show (0 : ℚ) ≤ pymax (1/10) (a.professional.current_workload - 5/100)
    rw [pymax_eq]
    exact le_trans (by norm_num) (le_max_left (1/10) _)
  · show pymax (1/10) (a.professional.current_workload - 5/100) ≤
      a.professional.workload_capacity * (12/10)
    rw [pymax_eq]
    exact max_le hfloor (by linarith)

/-- C3 amended: for every agent whose workload capacity is at least
1/12 (so that the decay floor 0.1 stays below 1.2 x capacity — true of
every factory-built agent, whose capacity lies in [0.9, 1.5]), any
sequence of response-processing updates and periodic decay updates
keeps stress in [0,1] and workload in [0, 1.2 x capacity]; the
capacity itself never changes. -/
theorem agent_bounds_invariant (a : Agent) (steps : List AgentStep)
    (hcap : 1/12 ≤ a.professional.workload_capacity)
    (h : AgentBoundsOk a) :
    AgentBoundsOk (applyAgentSteps a steps) ∧
    (applyAgentSteps a steps).professional.workload_capacity =
      a.professional.workload_capacity := by
  induction steps generalizing a with
  | nil => exact ⟨h, rfl⟩
  | cons step rest ih =>
      have hstep : AgentBoundsOk (applyAgentStep a step) ∧
          (applyAgentStep a step).professional.workload_capacity =
            a.professional.workload_capacity := by
        cases step with
        | respond sid rt =>
            exact updateAgentAfterResponse_bounds a sid rt
              (le_trans (by norm_num) hcap) h
        | decay => exact decayAgentState_bounds a hcap h
      have hcap' : 1/12 ≤ (applyAgentStep a step).professional.workload_capacity := by
        rw [hstep.2]; exact hcap
      have := ih (applyAgentStep a step) hcap' hstep.1
      rw [applyAgentSteps_cons]
      exact ⟨this.1, by rw [this.2, hstep.2]⟩

/-- An agent with a tiny workload capacity (1/100) satisfying the
claim's initial bounds. -/
def tinyCapacityAgent : Agent :=
  ⟨"t1", "", "", mkProfile (fun _ => 1/2),
    ⟨"D", "R", 1, [], [], none, 1/100, 0⟩, ⟨0, [], 0⟩,
    MemberState.available, "org"⟩

/-- C3 counterexample: the claim as stated is quantified over every
persona, but a persona with workload capacity 1/100 and initial
workload 0 (within [0, 1.2 x capacity]) leaves the claimed workload
interval after a single periodic decay update, because the decay
clamps the workload up to the floor 0.1 > 1.2 x 1/100. -/
theorem agent_bounds_counterexample :
    AgentBoundsOk tinyCapacityAgent ∧
    (applyAgentSteps tinyCapacityAgent [AgentStep.decay]).professional.current_workload = 1/10 ∧
    ¬((applyAgentSteps tinyCapacityAgent [AgentStep.decay]).professional.current_workload ≤
        tinyCapacityAgent.professional.workload_capacity * (12/10)) := by
  refine ⟨⟨by norm_num [tinyCapacityAgent], by norm_num [tinyCapacityAgent],
    by norm_num [tinyCapacityAgent], by norm_num [tinyCapacityAgent]⟩, ?_, ?_⟩
  · norm_num [applyAgentSteps, applyAgentStep, decayAgentState,
      tinyCapacityAgent, pymax]
  · norm_num [applyAgentSteps, applyAgentStep, decayAgentState,
      tinyCapacityAgent, pymax]

/-- Witness for C3's amended theorem: a capacity-1 agent keeps its
bounds through a take-action response followed by a decay. -/
theorem agent_bounds_invariant_witness :
    AgentBoundsOk (applyAgentSteps (agentInState MemberState.available)
      [AgentStep.respond "boss" ResponseType.takeAction,
       AgentStep.decay]) :=
  (agent_bounds_invariant (agentInState MemberState.available)
    [AgentStep.respond "boss" ResponseType.takeAction, AgentStep.decay]
    (by norm_num [agentInState, sampleProfessional])
    ⟨by norm_num [agentInState],
     by norm_num [agentInState],
     by norm_num [agentInState, sampleProfessional],
     by norm_num [agentInState, sampleProfessional]⟩).1

end LivingTwin

namespace LivingTwin

/-! ## C5: the nudge-repeat counter -/

/-- A NUDGE communication as created by send_communication. -/
def nudgeComm : Communication :=
  ⟨"n1", CommunicationType.nudge, "boss", ["a1"], "s", "b", 3, none,
    "org", 0, 5, []⟩

/-- A one-agent engine state with nudgeComm active. -/
def c5state : SimState :=
  ⟨[("a1", agentInState MemberState.available)], [nudgeComm], 1, 0, 0⟩

/-- A round in which the single recipient responds with ignore. -/
def c5dec : String → Option ResponseDraw :=
  fun rid => if rid = "a1" then some ⟨ResponseType.ignore, "", 0, 3/10⟩
    else none

lemma processCommunicationResponses_nudge_count (s : SimState)
    (c : Communication) (dec : String → Option ResponseDraw)
    (fr : ℕ → String) :
    ((processCommunicationResponses s c dec fr).2).nudge_count =
      c.nudge_count := by
  simp only [processCommunicationResponses]
  split
  · split <;> rfl
  · rfl

/-- C5 counterexample: a processed response round (here: the single
recipient of a fresh NUDGE responds with ignore) leaves the
nudge-repeat counter at 0 instead of increasing it to 1 — the engine
never calls update_nudge_count. -/
theorem nudge_round_counterexample :
    nudgeComm.nudge_count = 0 ∧
    ((processCommunicationResponses c5state nudgeComm c5dec
        (fun _ => "e")).2).nudge_count = 0 ∧
    ¬(((processCommunicationResponses c5state nudgeComm c5dec
        (fun _ => "e")).2).nudge_count = nudgeComm.nudge_count + 1) := by
  refine ⟨rfl, ?_, ?_⟩
  · rw [processCommunicationResponses_nudge_count]
    decide
  · rw [processCommunicationResponses_nudge_count]
    decide

/-- C5 amended: the nudge counter is modified only by
EscalationManager.update_nudge_count, which increases it by exactly 1
per call on a NUDGE-kind message and leaves other kinds untouched; no
operation decreases it; the engine's response-processing round never
invokes it, so a processed round leaves the counter unchanged. -/
theorem nudge_count_spec (s : SimState) (c : Communication)
    (dec : String → Option ResponseDraw) (fr : ℕ → String)
    (c2 : Communication) :
    ((processCommunicationResponses s c dec fr).2).nudge_count =
      c.nudge_count ∧
    (c2.type = CommunicationType.nudge →
      ((updateNudgeCount c2).1).nudge_count = c2.nudge_count + 1) ∧
    (c2.type ≠ CommunicationType.nudge → (updateNudgeCount c2).1 = c2) ∧
    c2.nudge_count ≤ ((updateNudgeCount c2).1).nudge_count := by
  refine ⟨processCommunicationResponses_nudge_count s c dec fr, ?_, ?_, ?_⟩
  · intro h
    simp [updateNudgeCount, h]
  · intro h
    simp [updateNudgeCount, h]
  · by_cases h : c2.type = CommunicationType.nudge
    · simp [updateNudgeCount, h]
    · simp [updateNudgeCount, h]

/-- Witness for C5's amended theorem at concrete communications. -/
theorem nudge_count_spec_witness :
    ((updateNudgeCount nudgeComm).1).nudge_count = 1 ∧
    (updateNudgeCount orderComm).1 = orderComm := by
  constructor
  · rw [(nudge_count_spec c5state nudgeComm c5dec (fun _ => "e")
      nudgeComm).2.1 rfl]
    decide
  · exact (nudge_count_spec c5state nudgeComm c5dec (fun _ => "e")
      orderComm).2.2.1 (by decide)

/-! ## C1: escalation check -/

lemma findNonResponsive_eq_claim (c : Communication) :
    findNonResponsiveRecipients c =
      c.recipient_ids.filter (fun rid =>
        match lastResponseFor c.responses rid with
        | none => true
        | some r =>
            decide (r.response_type = ResponseType.ignore) ||
            decide (r.response_type = ResponseType.escalate) ||
            (decide (r.response_type = ResponseType.takeAction) &&
              !r.action_taken)) := by
  unfold findNonResponsiveRecipients
  apply List.filter_congr
  intro rid _
  cases h : lastResponseFor c.responses rid with
  | none => rfl
  | some r =>
      cases hrt : r.response_type <;> cases hat : r.action_taken <;>
        simp [hrt, hat]

/-- A NUDGE with threshold 2, two nudges delivered and one silent
recipient. -/
def ripeNudge : Communication :=
  ⟨"n2", CommunicationType.nudge, "boss", ["r1"], "plan", "do it", 3,
    none, "org", 2, 2, []⟩

/-- An agents map binding the silent recipient, as the engine always
supplies (state.agents keys cover the recipient ids). -/
def c1agents : List (String × Agent) :=
  [("r1", agentInState MemberState.available)]

/-- C1: code bug.  At the failing input — the escalation-eligible
NUDGE ripeNudge (kind NUDGE, counter 2 ≥ threshold 2, its silent
recipient "r1" non-responsive) with "r1" a known member, the shape
the engine always produces — the escalation check raises
AttributeError inside _log_escalation (agents.get(agent_id,
\x7b\x7d).get(name, agent_id) calls .get on a dataclass) and delivers no
escalated communication, although the construction logic itself
matches the claim: with no member bound to the recipients the check
returns exactly one communication, of ORDER kind, addressed to
exactly the non-responsive subset, with priority min(5, original+1)
= 4 and a fresh nudge counter 0. -/
theorem escalation_check_code_bug :
    shouldEscalate ripeNudge = true ∧
    (alookup c1agents "r1").isSome = true ∧
    checkForEscalations 5 (fun _ => "e1") c1agents [ripeNudge] =
      Except.error
        "AttributeError: OrganizationalMember has no attribute get" ∧
    checkForEscalations 5 (fun _ => "e1") [] [ripeNudge] =
      Except.ok [createEscalatedCommunication 5 "e1" [] ripeNudge] ∧
    (createEscalatedCommunication 5 "e1" [] ripeNudge).type =
      CommunicationType.order ∧
    (createEscalatedCommunication 5 "e1" [] ripeNudge).recipient_ids =
      findNonResponsiveRecipients ripeNudge ∧
    (createEscalatedCommunication 5 "e1" [] ripeNudge).priority_level
      = 4 ∧
    (createEscalatedCommunication 5 "e1" [] ripeNudge).nudge_count = 0 := by
  refine ⟨by decide, by decide, ?_, ?_, rfl, rfl, by decide, rfl⟩
  · rfl
  · rfl

end LivingTwin

namespace LivingTwin

/-! ## C9: escalation metrics are always the zero report -/

/-- C9: every record written by _log_escalation lacks the
"organization_id" key, so get_escalation_metrics' filter matches no
record and the query returns the all-zero/empty report for every
organization id. -/
theorem escalation_metrics_always_zero (orgId : String)
    (history : List (List (String × RVal)))
    (h : ∀ rec ∈ history, ∃ ts agents orig esc,
      rec = escalationRecord ts agents orig esc) :
    getEscalationMetrics orgId history =
      ⟨0, 0, [], [], 0⟩ := by
  have hfilter : history.filter (fun rec => recordMatchesOrg rec orgId)
      = [] := by
    rw [List.filter_eq_nil_iff]
    intro rec hrec
    obtain ⟨ts, agents, orig, esc, rfl⟩ := h rec hrec
    simp [escalationRecord, recordMatchesOrg, alookup]
  unfold getEscalationMetrics
  rw [hfilter]
  rfl

/-- Witness for C9: a one-record history produced by the logger yields
the zero report. -/
theorem escalation_metrics_always_zero_witness :
    getEscalationMetrics "org"
      [escalationRecord "t" []
        ripeNudge (createEscalatedCommunication 5 "e1" [] ripeNudge)] =
      ⟨0, 0, [], [], 0⟩ :=
  escalation_metrics_always_zero "org" _
    (by
      intro rec hrec
      rw [List.mem_singleton] at hrec
      exact ⟨"t", [], ripeNudge,
        createEscalatedCommunication 5 "e1" [] ripeNudge, hrec⟩)

end LivingTwin

namespace LivingTwin

/-! ## C2: scheduler tick -/

/-- The firing order the claim asserts: strictly earlier target time,
or equal target time and earlier insertion (sequence number). -/
def evLex (a b : SchedEvent) : Prop :=
  a.time < b.time ∨ (a.time = b.time ∧ a.seq < b.seq)

lemma evLex_time_le {a b : SchedEvent} (h : evLex a b) : a.time ≤ b.time := by
  rcases h with h | ⟨h, _⟩
  · exact le_of_lt h
  · exact le_of_eq h

lemma mem_insertByTime (x e : SchedEvent) (l : List SchedEvent) :
    x ∈ insertByTime e l ↔ x = e ∨ x ∈ l := by
  induction l with
  | nil => simp [insertByTime]
  | cons f rest ih =>
      by_cases hfe : f.time ≤ e.time
      · simp only [insertByTime, if_pos hfe, List.mem_cons, ih]
        try tauto
      · simp only [insertByTime, if_neg hfe, List.mem_cons]
        try tauto

lemma insertByTime_pairwise (e : SchedEvent) (l : List SchedEvent)
    (hl : l.Pairwise evLex) (hfresh : ∀ f ∈ l, f.seq < e.seq) :
    (insertByTime e l).Pairwise evLex := by
  induction l with
  | nil => simp [insertByTime, List.pairwise_singleton]
  | cons f rest ih =>
      rw [List.pairwise_cons] at hl
      obtain ⟨hf, hrest⟩ := hl
      by_cases hfe : f.time ≤ e.time
      · rw [insertByTime, if_pos hfe, List.pairwise_cons]
        refine ⟨?_, ih hrest (fun g hg => hfresh g (List.mem_cons_of_mem f hg))⟩
        intro x hx
        rcases (mem_insertByTime x e rest).mp hx with rfl | hx
        · rcases lt_or_eq_of_le hfe with hlt | heq
          · exact Or.inl hlt
          · exact Or.inr ⟨heq, hfresh f (List.mem_cons_self f rest)⟩
        · exact hf x hx
      · rw [insertByTime, if_neg hfe]
        have het : e.time < f.time := lt_of_not_le hfe
        rw [List.pairwise_cons]
        refine ⟨?_, List.pairwise_cons.mpr ⟨hf, hrest⟩⟩
        intro x hx
        rcases List.mem_cons.mp hx with rfl | hx
        · exact Or.inl het
        · exact Or.inl (lt_of_lt_of_le het (evLex_time_le (hf x hx)))

lemma sortByTime_append_single (l : List SchedEvent) (e : SchedEvent) :
    sortByTime (l ++ [e]) = insertByTime e (sortByTime l) := by
  unfold sortByTime
  rw [List.foldl_append]
  rfl

lemma insertByTime_all_le (x : SchedEvent) (l : List SchedEvent)
    (h : ∀ f ∈ l, f.time ≤ x.time) : insertByTime x l = l ++ [x] := by
  induction l with
  | nil => rfl
  | cons f rest ih =>
      rw [insertByTime, if_pos (h f (List.mem_cons_self f rest))]
      rw [ih (fun g hg => h g (List.mem_cons_of_mem f hg))]
      rfl

lemma sortByTime_of_sorted (l : List SchedEvent)
    (h : l.Pairwise (fun a b => a.time ≤ b.time)) : sortByTime l = l := by
  induction l using List.reverseRecOn with
  | nil => rfl
  | append_singleton l' x ih =>
      rw [List.pairwise_append] at h
      obtain ⟨h1, _, h3⟩ := h
      rw [sortByTime_append_single, ih h1]
      exact insertByTime_all_le x l'
        (fun f hf => h3 f hf x (List.mem_singleton_self x))

lemma scheduleEvent_eq_insert (q : List SchedEvent) (e : SchedEvent)
    (hq : q.Pairwise (fun a b => a.time ≤ b.time)) :
    scheduleEvent q e = insertByTime e q := by
  unfold scheduleEvent
  rw [sortByTime_append_single, sortByTime_of_sorted q hq]

lemma foldl_schedule_invariant (evs : List SchedEvent)
    (q : List SchedEvent) (hq : q.Pairwise evLex)
    (hseq : evs.Pairwise (fun a b => a.seq < b.seq))
    (hqe : ∀ x ∈ q, ∀ f ∈ evs, x.seq < f.seq) :
    (evs.foldl scheduleEvent q).Pairwise evLex := by
  induction evs generalizing q with
  | nil => exact hq
  | cons e rest ih =>
      rw [List.pairwise_cons] at hseq
      obtain ⟨hhead, hrest⟩ := hseq
      have htime : q.Pairwise (fun a b => a.time ≤ b.time) :=
        hq.imp (fun h => evLex_time_le h)
      have hq' : (scheduleEvent q e).Pairwise evLex := by
        rw [scheduleEvent_eq_insert q e htime]
        exact insertByTime_pairwise e q hq
          (fun f hf => hqe f hf e (List.mem_cons_self e rest))
      have hmem : ∀ x ∈ scheduleEvent q e, x = e ∨ x ∈ q := by
        intro x hx
        rw [scheduleEvent_eq_insert q e htime] at hx
        exact (mem_insertByTime x e q).mp hx
      have hqe' : ∀ x ∈ scheduleEvent q e, ∀ f ∈ rest, x.seq < f.seq := by
        intro x hx f hf
        rcases hmem x hx with rfl | hx
        · exact hhead f hf
        · exact hqe x hx f (List.mem_cons_of_mem e hf)
      exact ih (scheduleEvent q e) hq' hrest hqe'

lemma enumFrom_fst_lower (n : ℕ) {α : Type} (l : List α) :
    ∀ p ∈ l.enumFrom n, n ≤ p.1 := by
  induction l generalizing n with
  | nil => intro p hp; cases hp
  | cons x xs ih =>
      intro p hp
      rcases List.mem_cons.mp hp with rfl | hp
      · exact le_refl n
      · exact le_trans (Nat.le_succ n) (ih (n + 1) p hp)

lemma enumFrom_pairwise_fst (n : ℕ) {α : Type} (l : List α) :
    (l.enumFrom n).Pairwise (fun a b => a.1 < b.1) := by
  induction l generalizing n with
  | nil => exact List.Pairwise.nil
  | cons x xs ih =>
      rw [List.enumFrom, List.pairwise_cons]
      exact ⟨fun p hp => lt_of_lt_of_le (Nat.lt_succ_self n)
        (enumFrom_fst_lower (n + 1) xs p hp), ih (n + 1)⟩

lemma buildQueue_pairwise (reqs : List (ℤ × Bool)) :
    (buildQueue reqs).Pairwise evLex := by
  unfold buildQueue
  apply foldl_schedule_invariant
  · exact List.Pairwise.nil
  · have henum : (reqs.enum).Pairwise (fun a b => a.1 < b.1) :=
      enumFrom_pairwise_fst 0 reqs
    exact List.Pairwise.map _ (fun a b h => h) henum
  · intro x hx
    cases hx

lemma splitDueEvents_aux (t : ℤ) (l : List SchedEvent)
    (acc : List SchedEvent × List SchedEvent) :
    l.foldl
      (fun acc e =>
        if e.time ≤ t then (acc.1 ++ [e], acc.2)
        else (acc.1, acc.2 ++ [e])) acc =
      (acc.1 ++ l.filter (fun e => decide (e.time ≤ t)),
       acc.2 ++ l.filter (fun e => !decide (e.time ≤ t))) := by
  induction l generalizing acc with
  | nil => simp
  | cons e rest ih =>
      by_cases he : e.time ≤ t
      · simp [List.foldl_cons, if_pos he, ih, List.filter_cons, he]
      · simp [List.foldl_cons, if_neg he, ih, List.filter_cons, he]

lemma splitDueEvents_eq (queue : List SchedEvent) (t : ℤ) :
    splitDueEvents queue t =
      (queue.filter (fun e => decide (e.time ≤ t)),
       queue.filter (fun e => !decide (e.time ≤ t))) := by
  unfold splitDueEvents
  rw [splitDueEvents_aux t queue ([], [])]
  simp

lemma fireEvents_eq_map (l : List SchedEvent) :
    fireEvents l = l.map SchedEvent.seq := by
  induction l with
  | nil => rfl
  | cons e rest ih =>
      rw [fireEvents]
      cases h : runCallback e <;> simp [ih]

/-- C2: on a tick at simulated time t over a queue built by a sequence
of schedule_event calls (seq is the insertion index), the fired list
is exactly the events with target time <= t, the remaining queue is
exactly the events with target time > t in unchanged order, the fired
list is ordered by evLex — non-decreasing target time with ties broken
by insertion order — and every due callback is invoked (the try/except
around each invocation makes the invocation list independent of which
callbacks raise). -/
theorem scheduler_tick_spec (reqs : List (ℤ × Bool)) (t : ℤ) :
    (processScheduledEvents (buildQueue reqs) t).1.1 =
      (buildQueue reqs).filter (fun e => decide (e.time ≤ t)) ∧
    (processScheduledEvents (buildQueue reqs) t).1.2 =
      (buildQueue reqs).filter (fun e => !decide (e.time ≤ t)) ∧
    ((processScheduledEvents (buildQueue reqs) t).1.1).Pairwise evLex ∧
    (processScheduledEvents (buildQueue reqs) t).2 =
      ((processScheduledEvents (buildQueue reqs) t).1.1).map
        SchedEvent.seq ∧
    (∀ e ∈ (processScheduledEvents (buildQueue reqs) t).1.1,
      e.seq ∈ (processScheduledEvents (buildQueue reqs) t).2) := by
  have hsplit := splitDueEvents_eq (buildQueue reqs) t
  have h1 : (processScheduledEvents (buildQueue reqs) t).1.1 =
      (buildQueue reqs).filter (fun e => decide (e.time ≤ t)) := by
    unfold processScheduledEvents
    rw [hsplit]
  have h2 : (processScheduledEvents (buildQueue reqs) t).1.2 =
      (buildQueue reqs).filter (fun e => !decide (e.time ≤ t)) := by
    unfold processScheduledEvents
    rw [hsplit]
  have h4 : (processScheduledEvents (buildQueue reqs) t).2 =
      ((processScheduledEvents (buildQueue reqs) t).1.1).map
        SchedEvent.seq := by
    unfold processScheduledEvents
    rw [hsplit]
    exact fireEvents_eq_map _
  refine ⟨h1, h2, ?_, h4, ?_⟩
  · rw [h1]
    exact (buildQueue_pairwise reqs).filter _
  · intro e he
    rw [h4]
    exact List.mem_map_of_mem SchedEvent.seq he

end LivingTwin

namespace LivingTwin

/-! ## C10: friction score -/

/-- A two-engineer organization. -/
def c10data : List (String × EmployeeRecord) :=
  [("a@x.com", ⟨none, some "Engineering", some "Engineer"⟩),
   ("b@x.com", ⟨none, some "Engineering", some "Engineer"⟩)]

/-- Concrete factory draws within the source's uniform ranges. -/
def c10draws : ℕ → FactoryDraws :=
  fun n => ⟨if n = 0 then "a1" else "a2", fun _ => 0, 3/10, 1/10, 0⟩

def c10s0 : SimState := initialState c10data "org" c10draws (fun _ _ => 0)

/-- One NUDGE sent to both members. -/
def c10sent : SimState × Communication :=
  sendCommunication c10s0 "c1" "boss" ["a1", "a2"]
    CommunicationType.nudge "subj" "body" 3 none "org"

/-- Both recipients respond with seek-clarification. -/
def c10dec : String → Option ResponseDraw :=
  fun rid =>
    if rid = "a1" ∨ rid = "a2" then
      some ⟨ResponseType.seekClarification, "", 1/10, 2/5⟩
    else none

def c10final : SimState :=
  (processCommunicationResponses c10sent.1 c10sent.2 c10dec
    (fun _ => "e1")).1

lemma c10s0_reach : Reach c10s0 := by
  apply Reach.init
  · intro n
    unfold DrawsInRange c10draws
    norm_num
  · intro i j
    norm_num

lemma c10sent_reach : Reach c10sent.1 :=
  Reach.send c10s0 "c1" "boss" ["a1", "a2"] CommunicationType.nudge
    "subj" "body" 3 none "org" c10s0_reach

lemma determineInitialState_ne_onLeave (r : ℚ) :
    determineInitialState r ≠ MemberState.onLeave := by
  unfold determineInitialState
  split_ifs <;> simp

lemma c10dec_ok : DecisionsOk c10sent.1.agents c10dec := by
  intro rid d h
  unfold c10dec at h
  by_cases h1 : rid = "a1" ∨ rid = "a2"
  · rw [if_pos h1] at h
    obtain rfl := Option.some.inj h
    constructor
    · rcases h1 with rfl | rfl
      · exact ⟨_, rfl, determineInitialState_ne_onLeave
          ((c10draws 0).stateDraw)⟩
      · exact ⟨_, rfl, determineInitialState_ne_onLeave
          ((c10draws 1).stateDraw)⟩
    · refine Or.inr (Or.inl ⟨rfl, ?_, ?_, ?_, ?_⟩) <;> norm_num
  · rw [if_neg h1] at h
    exact absurd h (by simp)

/-- Friction is negative whenever two low-stress agents produced two
responses to a single communication without escalations. -/
lemma frictionScore_of_components (s : SimState) (x y : ℚ)
    (hag : s.agents.map (fun p => p.2.memory.stress_level) = [x, y])
    (hcomm : s.total_communications_sent = 1)
    (hresp : s.total_responses_received = 2)
    (hesc : s.escalations_triggered = 0)
    (hx : x ≤ 12/100) (hy : y ≤ 12/100) :
    calculateFrictionScore s < 0 := by
  have hlen : s.agents.length = 2 := by
    have := congrArg List.length hag
    simpa using this
  have hnil : s.agents ≠ [] := by
    intro hn
    rw [hn] at hlen
    cases hlen
  have hne : s.agents.isEmpty = false := by
    simpa [List.isEmpty_iff] using hnil
  have hsum : (s.agents.map (fun p => p.2.memory.stress_level)).sum
      = x + y := by
    rw [hag]
    simp
  unfold calculateFrictionScore
  rw [hne]
  simp only [Bool.false_eq_true, if_false]
  rw [pymin_eq, hsum, hlen, hcomm, hresp, hesc]
  apply lt_of_le_of_lt (min_le_right _ _)
  push_cast
  norm_num
  linarith

lemma c10final_reach : Reach c10final :=
  Reach.process c10sent.1 c10sent.2 c10dec (fun _ => "e1")
    c10sent_reach (List.mem_singleton_self c10sent.2) c10dec_ok

/-- C10: the friction score is min(1, 0.4 x average stress + 0.4 x
escalation rate + 0.2 x (1 - responses/communications)), hence never
above 1, but it has no lower clamp: responses are counted once per
responding recipient while communications are counted once per
message, and a reachable state (one NUDGE to two members, both
responding) makes the non-response term negative enough that the
returned score is negative. -/
theorem friction_score_spec :
    (∀ s : SimState, calculateFrictionScore s ≤ 1) ∧
    (∃ s : SimState, Reach s ∧ calculateFrictionScore s < 0) := by
  constructor
  · intro s
    by_cases h : s.agents.isEmpty
    · simp [calculateFrictionScore, h]
    · simp only [calculateFrictionScore, h, Bool.false_eq_true,
        if_false]
      rw [pymin_eq]
      exact min_le_left _ _
  · refine ⟨c10final, c10final_reach, ?_⟩
    exact frictionScore_of_components c10final
      (pymin 1 (1/10 + 2/100)) (pymin 1 (1/10 + 2/100))
      rfl rfl rfl rfl
      (by rw [pymin_eq]; exact le_trans (min_le_right _ _) (by norm_num))
      (by rw [pymin_eq]; exact le_trans (min_le_right _ _) (by norm_num))

end LivingTwin

namespace LivingTwin

/-- Witness for C2: three scheduled events (times 5, 3, 5) ticked at
time 4 — the due event fires and its callback is invoked even though
it raises. -/
theorem scheduler_tick_spec_witness :
    (processScheduledEvents
      (buildQueue [(5, false), (3, true), (5, false)]) 4).1.1 =
      (buildQueue [(5, false), (3, true), (5, false)]).filter
        (fun e => decide (e.time ≤ 4)) ∧
    (SchedEvent.mk 3 1 true).seq ∈
      (processScheduledEvents
        (buildQueue [(5, false), (3, true), (5, false)]) 4).2 :=
  ⟨(scheduler_tick_spec [(5, false), (3, true), (5, false)] 4).1,
   (scheduler_tick_spec [(5, false), (3, true), (5, false)] 4).2.2.2.2
     (SchedEvent.mk 3 1 true) (by decide)⟩

end LivingTwin
